import Mathlib

/-!
Shallow embedding of `geodetic_problems.py`: solvers for the direct and
inverse geodetic problems with ellipsoidal chords.  Python floats are
modelled by real numbers; Python exceptions (`ValueError` raised by the
constructors, `ZeroDivisionError` raised by float division by zero) are
modelled by `Except PyError`.  The DMS string formatter, which is exact
integer/decimal manipulation, is modelled over `ℚ` so that it stays
computable.
-/

namespace Geodetic

/-- Errors raised by the Python code.  `invalidLatitude` stands for
`ValueError("Latitude must be in range [-90, 90]")`, `invalidLongitude` for
the `ValueError` raised by the longitude check, and `zeroDivision` for the
builtin `ZeroDivisionError` raised by float division by zero.  The code
raises no other errors on the paths modelled here. -/
inductive PyError where
  | invalidLatitude : PyError
  | invalidLongitude : PyError
  | zeroDivision : PyError
deriving DecidableEq

noncomputable section

/-- `math.radians`: degrees to radians. -/
def radians (d : ℝ) : ℝ := d * (Real.pi / 180)

/-- `math.degrees`: radians to degrees. -/
def degrees (r : ℝ) : ℝ := r * (180 / Real.pi)

/-- First eccentricity squared, `(a**2 - b**2) / a**2` (both constructors). -/
def e2of (a b : ℝ) : ℝ := (a ^ 2 - b ^ 2) / a ^ 2

/-- Normal radius of curvature in prime vertical,
`a / math.sqrt(1 - e2 * math.sin(lat)**2)`. -/
def Ncurv (a b lat : ℝ) : ℝ := a / Real.sqrt (1 - e2of a b * Real.sin lat ^ 2)

/-- Longitude normalization performed by both constructors:
`if lon > 180: lon -= 360`. -/
def normLon (lon : ℝ) : ℝ := if 180 < lon then lon - 360 else lon

/-- `math.atan2 y x` on reals (the branches of the C library function;
real numbers carry no signed zero). -/
def atan2 (y x : ℝ) : ℝ :=
  if 0 < x then Real.arctan (y / x)
  else if x < 0 then
    (if 0 ≤ y then Real.arctan (y / x) + Real.pi else Real.arctan (y / x) - Real.pi)
  else
    (if 0 < y then Real.pi / 2 else if y < 0 then -(Real.pi / 2) else 0)

/-- Python float division: raises `ZeroDivisionError` on a zero divisor. -/
def pyDiv (x y : ℝ) : Except PyError ℝ :=
  if y = 0 then Except.error PyError.zeroDivision else Except.ok (x / y)

/-- State of an `InverseProblem` object after a successful `__init__`:
latitudes and longitudes are stored in radians (longitudes already
normalized), and `e2`, `N1`, `N2` are the derived quantities computed by
the constructor. -/
structure InverseProblem where
  lat1 : ℝ
  lon1 : ℝ
  height1 : ℝ
  lat2 : ℝ
  lon2 : ℝ
  height2 : ℝ
  a : ℝ
  b : ℝ
  e2 : ℝ
  N1 : ℝ
  N2 : ℝ

/-- The field assignments of `InverseProblem.__init__` (after validation):
longitude normalization, conversion to radians, `e2`, `N1`, `N2`. -/
def InverseProblem.make (lat1 lon1 height1 lat2 lon2 height2 a b : ℝ) :
    InverseProblem where
  lat1 := radians lat1
  lon1 := radians (normLon lon1)
  height1 := height1
  lat2 := radians lat2
  lon2 := radians (normLon lon2)
  height2 := height2
  a := a
  b := b
  e2 := e2of a b
  N1 := Ncurv a b (radians lat1)
  N2 := Ncurv a b (radians lat2)

/-- `InverseProblem.__init__`, validation included: latitude checks first
(each raising `ValueError`), then the longitude check, then the field
assignments. -/
def InverseProblem.init (lat1 lon1 height1 lat2 lon2 height2 a b : ℝ) :
    Except PyError InverseProblem :=
  if ¬(-90 ≤ lat1 ∧ lat1 ≤ 90) then Except.error PyError.invalidLatitude
  else if ¬(-90 ≤ lat2 ∧ lat2 ≤ 90) then Except.error PyError.invalidLatitude
  else if 360 < lon1 ∨ 360 < lon2 then Except.error PyError.invalidLongitude
  else Except.ok (InverseProblem.make lat1 lon1 height1 lat2 lon2 height2 a b)

/-- Cosine of the central angle between the two points, the local
`cos_fi` of `chord_distance` and both zenith-distance methods. -/
def InverseProblem.cosFi (p : InverseProblem) : ℝ :=
  Real.sin p.lat1 * Real.sin p.lat2 +
    Real.cos p.lat1 * Real.cos p.lat2 * Real.cos (p.lon2 - p.lon1)

/-- The radicand `chord` computed by `InverseProblem.chord_distance`. -/
def InverseProblem.chordSq (p : InverseProblem) : ℝ :=
  (p.N2 + p.height2) ^ 2 + (p.N1 + p.height1) ^ 2
    - 2 * (p.N2 + p.height2) * (p.N1 + p.height1) * p.cosFi
    - (p.a ^ 4 - p.b ^ 4) / p.a ^ 4 *
        (p.N2 * Real.sin p.lat2 - p.N1 * Real.sin p.lat1) ^ 2
    - 2 * p.e2 * (p.N2 * Real.sin p.lat2 - p.N1 * Real.sin p.lat1) *
        (p.height2 * Real.sin p.lat2 - p.height1 * Real.sin p.lat1)

/-- `InverseProblem.chord_distance`. -/
def InverseProblem.chord_distance (p : InverseProblem) : ℝ :=
  Real.sqrt p.chordSq

/-- Cartesian coordinates of point A, as computed inside
`convert_to_xyz` and `cartesian_distance`. -/
def InverseProblem.X1 (p : InverseProblem) : ℝ :=
  (p.N1 + p.height1) * Real.cos p.lat1 * Real.cos p.lon1

def InverseProblem.Y1 (p : InverseProblem) : ℝ :=
  (p.N1 + p.height1) * Real.cos p.lat1 * Real.sin p.lon1

def InverseProblem.Z1 (p : InverseProblem) : ℝ :=
  (p.N1 * (1 - p.e2) + p.height1) * Real.sin p.lat1

def InverseProblem.X2 (p : InverseProblem) : ℝ :=
  (p.N2 + p.height2) * Real.cos p.lat2 * Real.cos p.lon2

def InverseProblem.Y2 (p : InverseProblem) : ℝ :=
  (p.N2 + p.height2) * Real.cos p.lat2 * Real.sin p.lon2

def InverseProblem.Z2 (p : InverseProblem) : ℝ :=
  (p.N2 * (1 - p.e2) + p.height2) * Real.sin p.lat2

/-- The radicand `chord` computed by `InverseProblem.cartesian_distance`
(squared Euclidean distance between the two Cartesian points). -/
def InverseProblem.cartSq (p : InverseProblem) : ℝ :=
  (p.X2 - p.X1) ^ 2 + (p.Y2 - p.Y1) ^ 2 + (p.Z2 - p.Z1) ^ 2

/-- `InverseProblem.cartesian_distance`. -/
def InverseProblem.cartesian_distance (p : InverseProblem) : ℝ :=
  Real.sqrt p.cartSq

/-- The radicand `reduced_chord` computed by `InverseProblem.reduced_distance`,
with the local `sin_2fi` inlined. -/
def InverseProblem.reducedSq (p : InverseProblem) : ℝ :=
  4 * p.N1 * p.N2 *
      (Real.sin ((p.lat2 - p.lat1) / 2) ^ 2 +
        Real.cos p.lat1 * Real.cos p.lat2 * Real.sin ((p.lon2 - p.lon1) / 2) ^ 2)
    + (p.N2 - p.N1) ^ 2
    - (p.a ^ 4 - p.b ^ 4) / p.a ^ 4 *
        (p.N2 * Real.sin p.lat2 - p.N1 * Real.sin p.lat1) ^ 2

/-- `InverseProblem.reduced_distance`. -/
def InverseProblem.reduced_distance (p : InverseProblem) : ℝ :=
  Real.sqrt p.reducedSq

/-- `InverseProblem.forward_azimuth`.  The two float divisions are the
fallible operations (Python raises `ZeroDivisionError` when the two points
share a meridian, making `sin(lon2 - lon1)` zero); everything else is
total.  The final conditional is the `if azimuth > 180: azimuth -= 360`
normalization. -/
def InverseProblem.forward_azimuth (p : InverseProblem) : Except PyError ℝ :=
  Except.bind
    (pyDiv
      (Real.sin p.lat2 * Real.cos p.lat1 -
        Real.cos p.lat2 * Real.sin p.lat1 * Real.cos (p.lon2 - p.lon1))
      (Real.cos p.lat2 * Real.sin (p.lon2 - p.lon1)))
    (fun ctga1 =>
      Except.bind
        (pyDiv
          (p.e2 * ((p.N2 * Real.sin p.lat2 - p.N1 * Real.sin p.lat1) *
            Real.cos p.lat1))
          ((p.N2 + p.height2) * Real.cos p.lat2 * Real.sin (p.lon2 - p.lon1)))
        (fun corr =>
          Except.ok
            (let azimuth := degrees (atan2 1 (ctga1 - corr))
             if azimuth > 180 then azimuth - 360 else azimuth)))

/-- State of a `DirectProblem` object after a successful `__init__`:
`lat1`, `lon1`, `azimuth`, `zenith` are stored in radians (`lon1` already
normalized); `e2`, `N1` and the direction cosines `l`, `m`, `n` are the
derived quantities computed by the constructor. -/
structure DirectProblem where
  lat1 : ℝ
  lon1 : ℝ
  height1 : ℝ
  chord : ℝ
  azimuth : ℝ
  zenith : ℝ
  a : ℝ
  b : ℝ
  e2 : ℝ
  N1 : ℝ
  l : ℝ
  m : ℝ
  n : ℝ

/-- The field assignments of `DirectProblem.__init__` (after validation). -/
def DirectProblem.make (lat1 lon1 height1 chord azimuth zenith a b : ℝ) :
    DirectProblem where
  lat1 := radians lat1
  lon1 := radians (normLon lon1)
  height1 := height1
  chord := chord
  azimuth := radians azimuth
  zenith := radians zenith
  a := a
  b := b
  e2 := e2of a b
  N1 := Ncurv a b (radians lat1)
  l := Real.cos (radians lat1) * Real.cos (radians (normLon lon1)) *
        Real.cos (radians zenith)
      - Real.sin (radians lat1) * Real.cos (radians (normLon lon1)) *
        Real.sin (radians zenith) * Real.cos (radians azimuth)
      - Real.sin (radians (normLon lon1)) * Real.sin (radians zenith) *
        Real.sin (radians azimuth)
  m := Real.cos (radians lat1) * Real.sin (radians (normLon lon1)) *
        Real.cos (radians zenith)
      - Real.sin (radians lat1) * Real.sin (radians (normLon lon1)) *
        Real.sin (radians zenith) * Real.cos (radians azimuth)
      + Real.cos (radians (normLon lon1)) * Real.sin (radians zenith) *
        Real.sin (radians azimuth)
  n := Real.sin (radians lat1) * Real.cos (radians zenith)
      + Real.cos (radians lat1) * Real.sin (radians zenith) *
        Real.cos (radians azimuth)

/-- `DirectProblem.__init__`, validation included. -/
def DirectProblem.init (lat1 lon1 height1 chord azimuth zenith a b : ℝ) :
    Except PyError DirectProblem :=
  if ¬(-90 ≤ lat1 ∧ lat1 ≤ 90) then Except.error PyError.invalidLatitude
  else if 360 < lon1 then Except.error PyError.invalidLongitude
  else Except.ok (DirectProblem.make lat1 lon1 height1 chord azimuth zenith a b)

/-- `self.a / math.sqrt(1 - self.e2 * math.sin(lat)**2)`, the radius of
curvature recomputed inside `DirectProblem.latitude` from the object's
`a` and `e2` fields. -/
def DirectProblem.Nof (p : DirectProblem) (lat : ℝ) : ℝ :=
  p.a / Real.sqrt (1 - p.e2 * Real.sin lat ^ 2)

/-- The `numerator` of the initial approximation in `DirectProblem.latitude`:
`(N1 + height1) * sin(lat1) + chord * n`. -/
def DirectProblem.latNum0 (p : DirectProblem) : ℝ :=
  (p.N1 + p.height1) * Real.sin p.lat1 + p.chord * p.n

/-- The `denominator` of `DirectProblem.latitude` (the same expression is
evaluated before the loop and again inside every loop iteration). -/
def DirectProblem.latDen (p : DirectProblem) : ℝ :=
  Real.sqrt
    (((p.N1 + p.height1) * Real.cos p.lat1 * Real.cos p.lon1 + p.chord * p.l) ^ 2
      + ((p.N1 + p.height1) * Real.cos p.lat1 * Real.sin p.lon1 + p.chord * p.m) ^ 2)

/-- One iteration of the loop body of `DirectProblem.latitude` on the state
`(lat2, N2)`: recompute `numerator` (with the `e2` correction using the
current `N2` and `lat2`), recompute `denominator`, update `lat2`, update
`N2`. -/
def DirectProblem.latStep (p : DirectProblem) (s : ℝ × ℝ) : ℝ × ℝ :=
  let numerator := p.latNum0 + p.e2 * (s.2 * Real.sin s.1 - p.N1 * Real.sin p.lat1)
  let denominator := p.latDen
  let lat2 := Real.arctan (numerator / denominator)
  (lat2, p.Nof lat2)

/-- `DirectProblem.latitude`: initial approximation followed by exactly 15
loop iterations; returns `(math.degrees(lat2), N2)`. -/
def DirectProblem.latitude (p : DirectProblem) : ℝ × ℝ :=
  let lat2 := Real.arctan (p.latNum0 / p.latDen)
  let s := (DirectProblem.latStep p)^[15] (lat2, p.Nof lat2)
  (degrees s.1, s.2)

/-- The update rule for `lat2` as the specification words it: recompute
`N2 = N(lat2)`, recompute `num = num0 + e2 * (N2 * sin(lat2) - N1 * sin(lat1))`,
set `lat2 = atan(num / den)` with a fixed denominator `den`.  This is the
spec-side definition used to state the refinement claim about
`DirectProblem.latitude`. -/
def DirectProblem.latStepSpec (p : DirectProblem) (den lat2 : ℝ) : ℝ :=
  let N2 := p.Nof lat2
  Real.arctan
    ((p.latNum0 + p.e2 * (N2 * Real.sin lat2 - p.N1 * Real.sin p.lat1)) / den)

/-- `latitude` as the specification words it: `lat2` starts from
`atan(num0 / den)`, the update `latStepSpec` runs exactly 15 times with
the denominator fixed at its initial value, and the result is
`(lat2 in degrees, N(lat2))`. -/
def DirectProblem.latitudeSpec (p : DirectProblem) : ℝ × ℝ :=
  let den := p.latDen
  let lat2 := (DirectProblem.latStepSpec p den)^[15] (Real.arctan (p.latNum0 / den))
  (degrees lat2, p.Nof lat2)

/-- `DirectProblem.longitude`: closed form via `atan2`, then normalization. -/
def DirectProblem.longitude (p : DirectProblem) : ℝ :=
  let X := (p.N1 + p.height1) * Real.cos p.lat1 * Real.sin p.lon1 + p.chord * p.m
  let Y := (p.N1 + p.height1) * Real.cos p.lat1 * Real.cos p.lon1 + p.chord * p.l
  let lon2 := degrees (atan2 X Y)
  if 180 < lon2 then lon2 - 360 else if lon2 < -180 then lon2 + 360 else lon2

/-- `DirectProblem.height`: the single float division by
`cos(lat2) * sin(lon2)` is the fallible operation (Python raises
`ZeroDivisionError` when `sin(lon2)` is exactly zero; there is no guard in
the source). -/
def DirectProblem.height (p : DirectProblem) : Except PyError ℝ :=
  let lat2 := radians p.latitude.1
  let lon2 := radians p.longitude
  let N2 := p.latitude.2
  Except.bind
    (pyDiv
      ((p.N1 + p.height1) * Real.cos p.lat1 * Real.sin p.lon1 + p.chord * p.m)
      (Real.cos lat2 * Real.sin lon2))
    (fun N2H2 => Except.ok (N2H2 - N2))

end

/-- Python `int()` applied to an exact numeric value: truncation toward
zero. -/
def pyTrunc (q : ℚ) : ℤ := if q < 0 then -⌊-q⌋ else ⌊q⌋

/-- The degree sign, `U+00B0`. -/
def degreeSign : String := String.singleton (Char.ofNat 176)

/-- The minute sign (apostrophe), `U+0027`. -/
def minuteSign : String := String.singleton (Char.ofNat 39)

/-- The second sign (double quote), `U+0022`. -/
def secondSign : String := String.singleton (Char.ofNat 34)

/-- Exactly `k` decimal digits of `m` (most significant first, with leading
zeros), as produced by fixed-width decimal rendering. -/
def digitsFixed : ℕ → ℕ → String
  | 0, _ => ""
  | k + 1, m => digitsFixed k (m / 10) ++ String.singleton (Char.ofNat (48 + m % 10))

/-- Round to the nearest integer, ties to even: the rounding used by
fixed-point decimal formatting. -/
def roundHalfEven (q : ℚ) : ℤ :=
  if q - ⌊q⌋ < 1 / 2 then ⌊q⌋
  else if 1 / 2 < q - ⌊q⌋ then ⌊q⌋ + 1
  else if ⌊q⌋ % 2 = 0 then ⌊q⌋ else ⌊q⌋ + 1

/-- The format specifier `:.8f`: fixed-point decimal rendering with exactly
8 digits after the decimal point (modelled on exact values; the sign, when
present, precedes the integer part). -/
def formatFixed8 (q : ℚ) : String :=
  let w := roundHalfEven (q * 100000000)
  (if w < 0 then "-" else "") ++ toString (w.natAbs / 100000000) ++ "." ++
    digitsFixed 8 (w.natAbs % 100000000)

/-- The local `minutes_float` of `decimal_to_dms`:
`(abs(decimal_degrees) - abs(degrees)) * 60`. -/
def dmsMinutesFloat (decimal_degrees : ℚ) : ℚ :=
  (|decimal_degrees| - |((pyTrunc decimal_degrees : ℤ) : ℚ)|) * 60

/-- The local `seconds` of `decimal_to_dms`:
`(minutes_float - minutes) * 60`. -/
def dmsSeconds (decimal_degrees : ℚ) : ℚ :=
  (dmsMinutesFloat decimal_degrees -
    ((pyTrunc (dmsMinutesFloat decimal_degrees) : ℤ) : ℚ)) * 60

/-- `decimal_to_dms` (identical in both classes): integer degrees, integer
minutes from the fractional degrees times 60, remaining fractional minutes
times 60 as seconds rendered with 8 decimal places. -/
def decimal_to_dms (decimal_degrees : ℚ) : String :=
  toString (pyTrunc decimal_degrees) ++ degreeSign ++
    toString (pyTrunc (dmsMinutesFloat decimal_degrees)) ++ minuteSign ++
    formatFixed8 (dmsSeconds decimal_degrees) ++ secondSign

/-! Helper lemmas. -/

theorem digitsFixed_length (k : ℕ) : ∀ m : ℕ, (digitsFixed k m).length = k := by
  induction k with
  | zero => intro m; rfl
  | succ k ih =>
    intro m
    show (digitsFixed k (m / 10) ++ String.singleton (Char.ofNat (48 + m % 10))).length = k + 1
    rw [String.length_append, ih]
    rfl

theorem abs_pyTrunc_le (q : ℚ) : |((pyTrunc q : ℤ) : ℚ)| ≤ |q| := by
  unfold pyTrunc
  split_ifs with h
  · have hf : (0 : ℤ) ≤ ⌊-q⌋ := Int.floor_nonneg.mpr (by linarith)
    push_cast
    rw [abs_neg, abs_of_nonneg (by exact_mod_cast hf), abs_of_neg h]
    exact Int.floor_le _
  · have hq : (0 : ℚ) ≤ q := not_lt.mp h
    have hf : (0 : ℤ) ≤ ⌊q⌋ := Int.floor_nonneg.mpr hq
    rw [abs_of_nonneg (by exact_mod_cast hf), abs_of_nonneg hq]
    exact Int.floor_le _

theorem pyTrunc_nonneg {q : ℚ} (h : 0 ≤ q) : 0 ≤ pyTrunc q := by
  unfold pyTrunc
  rw [if_neg (not_lt.mpr h)]
  exact Int.floor_nonneg.mpr h

theorem pyTrunc_cast_le {q : ℚ} (h : 0 ≤ q) : ((pyTrunc q : ℤ) : ℚ) ≤ q := by
  unfold pyTrunc
  rw [if_neg (not_lt.mpr h)]
  exact Int.floor_le q

theorem dmsMinutesFloat_nonneg (d : ℚ) : 0 ≤ dmsMinutesFloat d := by
  unfold dmsMinutesFloat
  have h := abs_pyTrunc_le d
  have : (0 : ℚ) ≤ |d| - |((pyTrunc d : ℤ) : ℚ)| := by linarith
  exact mul_nonneg this (by norm_num)

theorem dmsSeconds_nonneg (d : ℚ) : 0 ≤ dmsSeconds d := by
  unfold dmsSeconds
  have h0 := dmsMinutesFloat_nonneg d
  have h1 := pyTrunc_cast_le h0
  exact mul_nonneg (by linarith) (by norm_num)

/-! Claim theorems. -/

/-- C9: for every latitude in `[-90, 90]` degrees and every ellipsoid with
`0 < b ≤ a`, the square-root argument `1 - e2 * sin(lat)^2` of the
curvature-radius computation is strictly positive (so `math.sqrt` raises no
domain error) and the radius `N(lat)` itself is strictly positive. -/
theorem curvature_radius_pos :
    ∀ a b lat : ℝ, 0 < b → b ≤ a → -90 ≤ lat → lat ≤ 90 →
      0 < 1 - e2of a b * Real.sin (radians lat) ^ 2 ∧
        0 < Ncurv a b (radians lat) := by
  intro a b lat hb hba _ _
  have ha : 0 < a := lt_of_lt_of_le hb hba
  have hs1 : Real.sin (radians lat) ^ 2 ≤ 1 := Real.sin_sq_le_one _
  have hs0 : 0 ≤ Real.sin (radians lat) ^ 2 := sq_nonneg _
  have he2lt : e2of a b < 1 := by
    unfold e2of
    rw [div_lt_one (by positivity)]
    nlinarith
  have he2ge : 0 ≤ e2of a b := by
    unfold e2of
    exact div_nonneg (by nlinarith) (by positivity)
  have harg : 0 < 1 - e2of a b * Real.sin (radians lat) ^ 2 := by nlinarith
  exact ⟨harg, div_pos ha (Real.sqrt_pos.mpr harg)⟩

/-- Witness for C9: the pole (`lat = 90`) on GRS80 succeeds. -/
theorem curvature_radius_pos_witness :
    0 < 1 - e2of 6378137 6356752.3141 * Real.sin (radians 90) ^ 2 ∧
      0 < Ncurv 6378137 6356752.3141 (radians 90) :=
  curvature_radius_pos 6378137 6356752.3141 90 (by norm_num) (by norm_num)
    (by norm_num) (by norm_num)

/-- C7 counterexample: the input longitude `-200` is accepted by the
constructor (the only rejection is `lon > 360`), is not folded, and is
stored as `-200` degrees, outside `(-180, 180]`. -/
theorem lon_normalization_counterexample :
    InverseProblem.init 0 (-200) 0 0 0 0 6378137 6356752.3141 =
      Except.ok (InverseProblem.make 0 (-200) 0 0 0 0 6378137 6356752.3141) ∧
    (InverseProblem.make 0 (-200) 0 0 0 0 6378137 6356752.3141).lon1 =
      radians (-200) ∧
    normLon (-200) = -200 ∧
    ¬(-180 < (-200 : ℝ) ∧ (-200 : ℝ) ≤ 180) := by
  have hn : normLon (-200 : ℝ) = -200 := by unfold normLon; norm_num
  refine ⟨?_, ?_, hn, by norm_num⟩
  · unfold InverseProblem.init
    have c1 : ¬¬((-90 : ℝ) ≤ 0 ∧ (0 : ℝ) ≤ 90) :=
      not_not_intro ⟨by norm_num, by norm_num⟩
    rw [if_neg c1, if_neg c1, if_neg (by rintro (h | h) <;> norm_num at h)]
  · show radians (normLon (-200)) = radians (-200)
    rw [hn]

/-- C7 amended: accepted longitudes in `(180, 360]` are folded by
subtracting 360 (in particular `285` is stored equivalently to `-75`), and
stored longitudes lie in `(-180, 180]` whenever the input lies in
`(-180, 360]`; but the constructor accepts every longitude `≤ 360`, and an
accepted input `≤ -180` is stored unchanged, outside `(-180, 180]`. -/
theorem lon_normalization_amended :
    (∀ lon : ℝ, 180 < lon → lon ≤ 360 → normLon lon = lon - 360) ∧
    normLon 285 = -75 ∧
    (InverseProblem.make 0 285 0 0 0 0 6378137 6356752.3141).lon1 =
      radians (-75) ∧
    (∀ lon : ℝ, -180 < lon → lon ≤ 360 →
      -180 < normLon lon ∧ normLon lon ≤ 180) := by
  have h285 : normLon (285 : ℝ) = -75 := by unfold normLon; norm_num
  refine ⟨?_, h285, ?_, ?_⟩
  · intro lon h _
    unfold normLon
    rw [if_pos h]
  · show radians (normLon 285) = radians (-75)
    rw [h285]
  · intro lon h1 h2
    unfold normLon
    split_ifs with h <;> constructor <;> linarith

/-- Witness for C7's amended theorem: folding at 285 and the in-range
conclusion at 200. -/
theorem lon_normalization_amended_witness :
    normLon 285 = 285 - 360 ∧ (-180 < normLon 200 ∧ normLon 200 ≤ 180) :=
  ⟨lon_normalization_amended.1 285 (by norm_num) (by norm_num),
    lon_normalization_amended.2.2.2 200 (by norm_num) (by norm_num)⟩

/-- C6: a latitude outside `[-90, 90]` makes either constructor fail with
the latitude `ValueError`, a longitude above 360 (with latitudes in range)
makes it fail with the longitude `ValueError`, and with all inputs in range
construction succeeds, returning the fully constructed solver state. -/
theorem construction_validation :
    ∀ lat1 lon1 h1 lat2 lon2 h2 chord azimuth zenith a b : ℝ,
      ((lat1 < -90 ∨ 90 < lat1) →
        InverseProblem.init lat1 lon1 h1 lat2 lon2 h2 a b =
            Except.error PyError.invalidLatitude ∧
          DirectProblem.init lat1 lon1 h1 chord azimuth zenith a b =
            Except.error PyError.invalidLatitude) ∧
      (-90 ≤ lat1 → lat1 ≤ 90 → (lat2 < -90 ∨ 90 < lat2) →
        InverseProblem.init lat1 lon1 h1 lat2 lon2 h2 a b =
          Except.error PyError.invalidLatitude) ∧
      (-90 ≤ lat1 → lat1 ≤ 90 → -90 ≤ lat2 → lat2 ≤ 90 →
        (360 < lon1 ∨ 360 < lon2) →
        InverseProblem.init lat1 lon1 h1 lat2 lon2 h2 a b =
          Except.error PyError.invalidLongitude) ∧
      (-90 ≤ lat1 → lat1 ≤ 90 → 360 < lon1 →
        DirectProblem.init lat1 lon1 h1 chord azimuth zenith a b =
          Except.error PyError.invalidLongitude) ∧
      (-90 ≤ lat1 → lat1 ≤ 90 → -90 ≤ lat2 → lat2 ≤ 90 →
        lon1 ≤ 360 → lon2 ≤ 360 → 0 < b → b ≤ a →
        InverseProblem.init lat1 lon1 h1 lat2 lon2 h2 a b =
          Except.ok (InverseProblem.make lat1 lon1 h1 lat2 lon2 h2 a b)) ∧
      (-90 ≤ lat1 → lat1 ≤ 90 → lon1 ≤ 360 → 0 < b → b ≤ a →
        DirectProblem.init lat1 lon1 h1 chord azimuth zenith a b =
          Except.ok (DirectProblem.make lat1 lon1 h1 chord azimuth zenith a b)) := by
  intro lat1 lon1 h1 lat2 lon2 h2 chord azimuth zenith a b
  refine ⟨?_, ?_, ?_, ?_, ?_, ?_⟩
  · intro h
    have hnot : ¬(-90 ≤ lat1 ∧ lat1 ≤ 90) := by
      rintro ⟨hx, hy⟩; rcases h with h | h <;> linarith
    constructor
    · unfold InverseProblem.init; rw [if_pos hnot]
    · unfold DirectProblem.init; rw [if_pos hnot]
  · intro ha1 ha2 h
    have hnot : ¬(-90 ≤ lat2 ∧ lat2 ≤ 90) := by
      rintro ⟨hx, hy⟩; rcases h with h | h <;> linarith
    unfold InverseProblem.init
    rw [if_neg (not_not_intro ⟨ha1, ha2⟩), if_pos hnot]
  · intro ha1 ha2 hb1 hb2 h
    unfold InverseProblem.init
    rw [if_neg (not_not_intro ⟨ha1, ha2⟩), if_neg (not_not_intro ⟨hb1, hb2⟩),
      if_pos h]
  · intro ha1 ha2 h
    unfold DirectProblem.init
    rw [if_neg (not_not_intro ⟨ha1, ha2⟩), if_pos h]
  · intro ha1 ha2 hb1 hb2 hl1 hl2 _ _
    unfold InverseProblem.init
    rw [if_neg (not_not_intro ⟨ha1, ha2⟩), if_neg (not_not_intro ⟨hb1, hb2⟩),
      if_neg (by rintro (h | h) <;> linarith)]
  · intro ha1 ha2 hl1 _ _
    unfold DirectProblem.init
    rw [if_neg (not_not_intro ⟨ha1, ha2⟩), if_neg (by linarith)]

/-- Witness for C6: a latitude of 100 is rejected by both constructors, a
longitude of 400 is rejected, and in-range inputs construct successfully. -/
theorem construction_validation_witness :
    (InverseProblem.init 100 0 0 0 0 0 6378137 6356752.3141 =
        Except.error PyError.invalidLatitude ∧
      DirectProblem.init 100 0 0 1000 45 80 6378137 6356752.3141 =
        Except.error PyError.invalidLatitude) ∧
    InverseProblem.init 10 400 0 20 30 0 6378137 6356752.3141 =
      Except.error PyError.invalidLongitude ∧
    InverseProblem.init 10 20 5 30 40 6 6378137 6356752.3141 =
      Except.ok (InverseProblem.make 10 20 5 30 40 6 6378137 6356752.3141) ∧
    DirectProblem.init 10 20 5 1000 45 80 6378137 6356752.3141 =
      Except.ok (DirectProblem.make 10 20 5 1000 45 80 6378137 6356752.3141) :=
  ⟨(construction_validation 100 0 0 0 0 0 1000 45 80 6378137
      6356752.3141).1 (Or.inr (by norm_num)),
    (construction_validation 10 400 0 20 30 0 1000 45 80 6378137
      6356752.3141).2.2.1 (by norm_num) (by norm_num) (by norm_num)
      (by norm_num) (Or.inl (by norm_num)),
    (construction_validation 10 20 5 30 40 6 1000 45 80 6378137
      6356752.3141).2.2.2.2.1 (by norm_num) (by norm_num) (by norm_num)
      (by norm_num) (by norm_num) (by norm_num) (by norm_num) (by norm_num),
    (construction_validation 10 20 5 30 40 6 1000 45 80 6378137
      6356752.3141).2.2.2.2.2 (by norm_num) (by norm_num) (by norm_num)
      (by norm_num) (by norm_num)⟩

/-- C8: `decimal_to_dms` renders `0` and `30.5` exactly as the
specification states; for every input the minute and second fields are
nonnegative (so the sign is carried only by the degree field), and the
seconds are always rendered with exactly 8 decimal digits. -/
theorem dms_format :
    decimal_to_dms 0 =
      "0" ++ degreeSign ++ "0" ++ minuteSign ++ "0.00000000" ++ secondSign ∧
    decimal_to_dms (61 / 2) =
      "30" ++ degreeSign ++ "30" ++ minuteSign ++ "0.00000000" ++ secondSign ∧
    (∀ d : ℚ, 0 ≤ pyTrunc (dmsMinutesFloat d) ∧ 0 ≤ dmsSeconds d) ∧
    (∀ q : ℚ,
      (digitsFixed 8 ((roundHalfEven (q * 100000000)).natAbs % 100000000)).length
        = 8) := by
  have f0 : formatFixed8 (0 : ℚ) = "0.00000000" := by
    have r0 : roundHalfEven ((0 : ℚ) * 100000000) = 0 := by
      norm_num [roundHalfEven]
    unfold formatFixed8
    rw [r0]
    decide
  refine ⟨?_, ?_,
    fun d => ⟨pyTrunc_nonneg (dmsMinutesFloat_nonneg d), dmsSeconds_nonneg d⟩,
    fun q => digitsFixed_length 8 _⟩
  · have t0 : pyTrunc (0 : ℚ) = 0 := by norm_num [pyTrunc]
    have m0 : dmsMinutesFloat (0 : ℚ) = 0 := by
      unfold dmsMinutesFloat
      rw [t0]
      norm_num
    have tm0 : pyTrunc (dmsMinutesFloat (0 : ℚ)) = 0 := by rw [m0, t0]
    have s0 : dmsSeconds (0 : ℚ) = 0 := by
      unfold dmsSeconds
      rw [m0, t0]
      norm_num
    unfold decimal_to_dms
    rw [t0, tm0, s0, f0]
    decide
  · have t2 : pyTrunc (61 / 2 : ℚ) = 30 := by norm_num [pyTrunc]
    have m2 : dmsMinutesFloat (61 / 2 : ℚ) = 30 := by
      unfold dmsMinutesFloat
      rw [t2, abs_of_nonneg (by norm_num : (0 : ℚ) ≤ 61 / 2)]
      norm_num
    have t30 : pyTrunc (30 : ℚ) = 30 := by norm_num [pyTrunc]
    have tm2 : pyTrunc (dmsMinutesFloat (61 / 2 : ℚ)) = 30 := by
      rw [m2, t30]
    have s2 : dmsSeconds (61 / 2 : ℚ) = 0 := by
      unfold dmsSeconds
      rw [m2, t30]
      norm_num
    unfold decimal_to_dms
    rw [t2, tm2, s2, f0]
    decide

/-- C10: the three distance accessors of the inverse solver are symmetric
under exchanging the two constructed points. -/
theorem distance_swap_symmetric :
    ∀ lat1 lon1 h1 lat2 lon2 h2 a b : ℝ,
      (InverseProblem.make lat2 lon2 h2 lat1 lon1 h1 a b).chord_distance =
          (InverseProblem.make lat1 lon1 h1 lat2 lon2 h2 a b).chord_distance ∧
        (InverseProblem.make lat2 lon2 h2 lat1 lon1 h1 a b).cartesian_distance =
          (InverseProblem.make lat1 lon1 h1 lat2 lon2 h2 a b).cartesian_distance ∧
        (InverseProblem.make lat2 lon2 h2 lat1 lon1 h1 a b).reduced_distance =
          (InverseProblem.make lat1 lon1 h1 lat2 lon2 h2 a b).reduced_distance := by
  intro lat1 lon1 h1 lat2 lon2 h2 a b
  have hs : ∀ x y : ℝ, Real.sin ((x - y) / 2) ^ 2 = Real.sin ((y - x) / 2) ^ 2 := by
    intro x y
    rw [show (x - y) / 2 = -((y - x) / 2) by ring, Real.sin_neg]
    ring
  refine ⟨?_, ?_, ?_⟩
  · unfold InverseProblem.chord_distance
    congr 1
    simp only [InverseProblem.chordSq, InverseProblem.cosFi, InverseProblem.make]
    rw [Real.cos_sub, Real.cos_sub]
    ring
  · unfold InverseProblem.cartesian_distance
    congr 1
    simp only [InverseProblem.cartSq, InverseProblem.X1, InverseProblem.X2,
      InverseProblem.Y1, InverseProblem.Y2, InverseProblem.Z1, InverseProblem.Z2,
      InverseProblem.make]
    ring
  · unfold InverseProblem.reduced_distance
    congr 1
    simp only [InverseProblem.reducedSq, InverseProblem.make]
    rw [hs (radians lat1) (radians lat2),
      hs (radians (normLon lon1)) (radians (normLon lon2))]
    ring

theorem latIter_eq (p : DirectProblem) :
    ∀ (k : ℕ) (lat2 : ℝ),
      (DirectProblem.latStep p)^[k] (lat2, p.Nof lat2) =
        ((DirectProblem.latStepSpec p p.latDen)^[k] lat2,
          p.Nof ((DirectProblem.latStepSpec p p.latDen)^[k] lat2)) := by
  intro k
  induction k with
  | zero => intro lat2; simp
  | succ k ih =>
    intro lat2
    rw [Function.iterate_succ_apply, Function.iterate_succ_apply]
    have hstep : DirectProblem.latStep p (lat2, p.Nof lat2) =
        (DirectProblem.latStepSpec p p.latDen lat2,
          p.Nof (DirectProblem.latStepSpec p p.latDen lat2)) := rfl
    rw [hstep]
    exact ih _

/-- C2: `DirectProblem.latitude` equals the specification's description:
`lat2` is initialized to `atan(num0 / den)`, the update (recompute `N2`,
recompute the corrected numerator, retake `atan(num / den)`) runs exactly
15 times with the denominator fixed at its initial value, and the method
returns `(lat2 in degrees, N2)`. -/
theorem latitude_fixed_iteration (p : DirectProblem) :
    p.latitude = p.latitudeSpec := by
  simp only [DirectProblem.latitude, DirectProblem.latitudeSpec]
  rw [latIter_eq p 15]

theorem chordSq_eq_cartSq (p : InverseProblem) (ha : p.a ≠ 0)
    (he : p.e2 = e2of p.a p.b) : p.chordSq = p.cartSq := by
  have hmu : (p.a ^ 4 - p.b ^ 4) / p.a ^ 4 = p.e2 * (2 - p.e2) := by
    rw [he]
    unfold e2of
    field_simp
    ring
  simp only [InverseProblem.chordSq, InverseProblem.cartSq, InverseProblem.cosFi,
    InverseProblem.X1, InverseProblem.X2, InverseProblem.Y1, InverseProblem.Y2,
    InverseProblem.Z1, InverseProblem.Z2]
  rw [hmu, Real.cos_sub]
  linear_combination
    (-((p.N1 + p.height1) ^ 2 * Real.cos p.lat1 ^ 2)) *
        Real.sin_sq_add_cos_sq p.lon1 +
      (-(p.N1 + p.height1) ^ 2) * Real.sin_sq_add_cos_sq p.lat1 +
      (-((p.N2 + p.height2) ^ 2 * Real.cos p.lat2 ^ 2)) *
        Real.sin_sq_add_cos_sq p.lon2 +
      (-(p.N2 + p.height2) ^ 2) * Real.sin_sq_add_cos_sq p.lat2

/-- C1: on any validly constructed inverse problem (latitudes in range,
longitudes at most 360, heights arbitrary, `0 < b ≤ a`), `chord_distance`
and `cartesian_distance` agree within `1e-6` m — in exact arithmetic the
two radicands are identical, so the difference is zero. -/
theorem chord_cartesian_agree :
    ∀ lat1 lon1 h1 lat2 lon2 h2 a b : ℝ,
      -90 ≤ lat1 → lat1 ≤ 90 → -90 ≤ lat2 → lat2 ≤ 90 →
      lon1 ≤ 360 → lon2 ≤ 360 → 0 < b → b ≤ a →
      |(InverseProblem.make lat1 lon1 h1 lat2 lon2 h2 a b).chord_distance -
          (InverseProblem.make lat1 lon1 h1 lat2 lon2 h2 a b).cartesian_distance|
        < 1 / 1000000 := by
  intro lat1 lon1 h1 lat2 lon2 h2 a b _ _ _ _ _ _ hb hba
  have ha : a ≠ 0 := ne_of_gt (lt_of_lt_of_le hb hba)
  have heq : (InverseProblem.make lat1 lon1 h1 lat2 lon2 h2 a b).chord_distance
      = (InverseProblem.make lat1 lon1 h1 lat2 lon2 h2 a b).cartesian_distance := by
    unfold InverseProblem.chord_distance InverseProblem.cartesian_distance
    rw [chordSq_eq_cartSq _ ha rfl]
  rw [heq, sub_self, abs_zero]
  norm_num

/-- Witness for C1 at a concrete valid input on GRS80. -/
theorem chord_cartesian_agree_witness :
    |(InverseProblem.make 0 0 0 10 20 100 6378137 6356752.3141).chord_distance -
        (InverseProblem.make 0 0 0 10 20 100 6378137
          6356752.3141).cartesian_distance|
      < 1 / 1000000 :=
  chord_cartesian_agree 0 0 0 10 20 100 6378137 6356752.3141 (by norm_num)
    (by norm_num) (by norm_num) (by norm_num) (by norm_num) (by norm_num)
    (by norm_num) (by norm_num)

theorem atan2_one_zero : atan2 1 0 = Real.pi / 2 := by
  unfold atan2
  rw [if_neg (lt_irrefl 0), if_neg (lt_irrefl 0), if_pos one_pos]

theorem degrees_pi_div_two : degrees (Real.pi / 2) = 90 := by
  unfold degrees
  field_simp [Real.pi_ne_zero]
  ring

theorem forward_azimuth_equatorial (p : InverseProblem)
    (h1 : Real.sin p.lat1 = 0) (h2 : Real.sin p.lat2 = 0)
    (hden1 : Real.cos p.lat2 * Real.sin (p.lon2 - p.lon1) ≠ 0)
    (hden2 : (p.N2 + p.height2) * Real.cos p.lat2 * Real.sin (p.lon2 - p.lon1) ≠ 0) :
    p.forward_azimuth = Except.ok 90 := by
  unfold InverseProblem.forward_azimuth pyDiv
  simp only [h1, h2, mul_zero, zero_mul, sub_zero]
  rw [if_neg hden1, if_neg hden2]
  simp only [Except.bind, zero_div, sub_zero, atan2_one_zero, degrees_pi_div_two]
  rw [if_neg (by norm_num : ¬(90 : ℝ) > 180)]

/-- C4 failing input: with `A = (0°, 0°, 0 m)` and `B = (0°, -1°, 0 m)` —
`B` due west of `A`, so `sin(lon2 - lon1) < 0` — `forward_azimuth` returns
`+90°` (due east).  `atan2(1, ctgA)` can only produce values in `(0°, 180°)`,
so westward azimuths are wrong by 180°. -/
theorem forward_azimuth_west_bug :
    Real.sin ((InverseProblem.make 0 0 0 0 (-1) 0 6378137 6356752.3141).lon2 -
        (InverseProblem.make 0 0 0 0 (-1) 0 6378137 6356752.3141).lon1) < 0 ∧
      (InverseProblem.make 0 0 0 0 (-1) 0 6378137 6356752.3141).forward_azimuth =
        Except.ok 90 := by
  have hpi : (0 : ℝ) < Real.pi / 180 := by positivity
  have hlt : Real.pi / 180 < Real.pi := div_lt_self Real.pi_pos (by norm_num)
  have hsin : 0 < Real.sin (Real.pi / 180) := Real.sin_pos_of_pos_of_lt_pi hpi hlt
  have hn0 : normLon (0 : ℝ) = 0 := by unfold normLon; norm_num
  have hn1 : normLon (-1 : ℝ) = -1 := by unfold normLon; norm_num
  have hr0 : radians 0 = 0 := by unfold radians; ring
  have hr1 : radians (-1) = -(Real.pi / 180) := by unfold radians; ring
  have h1 : Real.sin ((InverseProblem.make 0 0 0 0 (-1) 0 6378137
      6356752.3141).lat1) = 0 := by
    show Real.sin (radians 0) = 0
    rw [hr0, Real.sin_zero]
  have h2 : Real.sin ((InverseProblem.make 0 0 0 0 (-1) 0 6378137
      6356752.3141).lat2) = 0 := by
    show Real.sin (radians 0) = 0
    rw [hr0, Real.sin_zero]
  have hclat2 : Real.cos ((InverseProblem.make 0 0 0 0 (-1) 0 6378137
      6356752.3141).lat2) = 1 := by
    show Real.cos (radians 0) = 1
    rw [hr0, Real.cos_zero]
  have hsd : Real.sin ((InverseProblem.make 0 0 0 0 (-1) 0 6378137
        6356752.3141).lon2 -
      (InverseProblem.make 0 0 0 0 (-1) 0 6378137 6356752.3141).lon1) =
        -Real.sin (Real.pi / 180) := by
    show Real.sin (radians (normLon (-1)) - radians (normLon 0)) = _
    rw [hn0, hn1, hr0, hr1, sub_zero, Real.sin_neg]
  have hN2 : (InverseProblem.make 0 0 0 0 (-1) 0 6378137 6356752.3141).N2 =
      6378137 := by
    show Ncurv 6378137 6356752.3141 (radians 0) = 6378137
    rw [hr0]
    unfold Ncurv
    rw [Real.sin_zero]
    norm_num [Real.sqrt_one]
  constructor
  · rw [hsd]
    linarith
  · refine forward_azimuth_equatorial _ h1 h2 ?_ ?_
    · rw [hclat2, hsd, one_mul]
      exact neg_ne_zero.mpr (ne_of_gt hsin)
    · rw [hN2, hclat2, hsd]
      show (6378137 + 0 : ℝ) * 1 * -Real.sin (Real.pi / 180) ≠ 0
      exact mul_ne_zero (mul_ne_zero (by norm_num) one_ne_zero)
        (neg_ne_zero.mpr (ne_of_gt hsin))

/-- C5 failing input: `A = (0°, 10°, 0 m)` and `B = (10°, 10°, 0 m)` share
a meridian (`sin(lon2 - lon1) = 0`), and `forward_azimuth` fails with the
unnamed builtin `ZeroDivisionError` — there is no `NumericDegeneracy`
guard anywhere in the source. -/
theorem forward_azimuth_same_meridian_zero_division :
    (InverseProblem.make 0 10 0 10 10 0 6378137 6356752.3141).forward_azimuth =
      Except.error PyError.zeroDivision := by
  have hll : (InverseProblem.make 0 10 0 10 10 0 6378137 6356752.3141).lon2 -
      (InverseProblem.make 0 10 0 10 10 0 6378137 6356752.3141).lon1 = 0 := by
    show radians (normLon 10) - radians (normLon 10) = 0
    rw [sub_self]
  unfold InverseProblem.forward_azimuth pyDiv
  rw [hll]
  simp [Real.sin_zero, mul_zero, Except.bind]

end Geodetic

